import Mathlib

/-!
Shallow embedding of the profile bootstrap flow of the Portal app Home
screen (the `initializeProfile` effect and its `waitForRelayConnection`
helper in `src/app/(tabs)/index.tsx`, lines 126-320), together with the
theorems settling the claims about it.

The flow is an orchestration over three collaborators:
  - a secure key-value store (keys `profile_initialized`,
    `portal_seed_origin`, `portal_username`),
  - an identity service (`fetchProfile`, `setUserProfile`,
    `refreshConnectionStatus` / `getConnectionSummary`),
  - a local profile state (`username`, `setUsername`).
The store is modelled as a record with one `Option String` field per key
that the flow touches; the behaviour of the collaborators is supplied by an
environment record `Env`; every externally visible action of a run is
recorded in an event list.
-/

namespace PortalBootstrap

/-- Model of the JavaScript whitespace test used by `String.prototype.trim`
(restricted to the common whitespace characters). -/
def isWsChar (c : Char) : Bool :=
  c = ' ' || c = '\t' || c = '\n' || c = '\r'

/-- Model of the JavaScript `String.prototype.trim`: drop leading and
trailing whitespace. (Defined over the character list so that it is
kernel-computable.) -/
def jsTrim (s : String) : String :=
  ⟨((s.data.dropWhile isWsChar).reverse.dropWhile isWsChar).reverse⟩

/-- The three SecureStore keys the flow touches: `profile_initialized`,
`portal_seed_origin` and `portal_username`. -/
inductive StoreKey
  | initFlag
  | seedOrigin
  | storedUsername
deriving DecidableEq, Repr

/-- The SecureKeyValueStore restricted to the keys the flow touches.
`none` models an absent key. -/
structure Store where
  initFlag : Option String
  seedOrigin : Option String
  storedUsername : Option String
deriving DecidableEq, Repr

/-- Process-local state: the store, the in-progress latch
(the `isInitializing` React state) and the in-memory display name held by
LocalProfileState (the `username` of the user profile context). -/
structure ProcState where
  store : Store
  latch : Bool
  displayName : String
deriving DecidableEq, Repr

/-- Result of `fetchProfile`: `{ found: boolean, username?: string }`.
`username = none` models an absent (`undefined`) field. -/
structure FetchedProfile where
  found : Bool
  username : Option String
deriving DecidableEq, Repr

/-- Equality of fetch outcomes is decidable (used to evaluate the
postcondition predicates on concrete runs). -/
instance : DecidableEq (Except Unit FetchedProfile) := fun a b =>
  match a, b with
  | Except.ok x, Except.ok y =>
    if h : x = y then Decidable.isTrue (by rw [h])
    else Decidable.isFalse (by simp [h])
  | Except.error x, Except.error y => Decidable.isTrue (by cases x; cases y; rfl)
  | Except.ok _, Except.error _ => Decidable.isFalse (fun hc => Except.noConfusion hc)
  | Except.error _, Except.ok _ => Decidable.isFalse (fun hc => Except.noConfusion hc)

/-- Behaviour of the external collaborators during one run.
Modelled from the spec (section 6): the implementations of
`fetchProfile`, `setUserProfile`, `setUsername`,
`refreshConnectionStatus`/`getConnectionSummary` and
`generateRandomGamertag` live outside the provided sources, so each is
given by its contract: `fetchResult` is the outcome of the single fetch
(`.error` models a thrown transport error); `publishThrows` tells whether
`setUserProfile` throws; `setNameThrows v` tells whether `setUsername v`
throws; `gamertag` is the tag `generateRandomGamertag` returns;
`connected i` is the `connectedCount` of the connection summary read
after the `i`-th `refreshConnectionStatus` call. -/
structure Env where
  fetchResult : Except Unit FetchedProfile
  publishThrows : Bool
  setNameThrows : String → Bool
  gamertag : String
  connected : Nat → Nat

/-- One trigger event of the effect: the dependency values observed when
the effect fires, plus the collaborator behaviour for that run. -/
structure Trig where
  svcReady : Bool
  publicKey : String
  portalApp : Bool
  syncStatus : String
  env : Env

/-- Externally visible events of a run, in order: store reads, writes and
deletes, the profile fetch, the profile publish, and calls to the
LocalProfileState username setter. -/
inductive Ev
  | readK (k : StoreKey)
  | writeK (k : StoreKey) (v : String)
  | deleteK (k : StoreKey)
  | fetchCall
  | publishCall (g : String)
  | setNameCall (v : String)
deriving DecidableEq, Repr

/-- Result of one run of the effect: final process state, the event log,
whether the body raised an error that the top-level catch swallowed, and
the final value of the `currentUsername` local variable. -/
structure RunOut where
  state : ProcState
  events : List Ev
  threw : Bool
  resolved : String
deriving DecidableEq, Repr

/-- The effect of a successful `setUsername v` per its contract: update
the in-memory display name and persist it under `portal_username`.
A call with `env.setNameThrows v = true` instead throws, leaving the
state unchanged (handled at each call site). -/
def setNameState (s : ProcState) (v : String) : ProcState :=
  { s with displayName := v
           store := { s.store with storedUsername := some v } }

/-- The usability test on the stored `portal_username` in the imported
branch (line 172-176): present, truthy, non-blank after trim, and not the
sentinel placeholder. -/
def usableLocal : Option String → Bool
  | some u => !(jsTrim u = "") && !(u = "Loading...")
  | none => false

/-- The `while (Date.now() - startTime < maxWait)` loop of
`waitForRelayConnection` (lines 202-221). `t` is the elapsed time at the
loop head; each iteration sleeps `checkInterval = 1000` ms, refreshes,
sleeps a further 100 ms for state to settle, and reads the summary; the
`i`-th loop check reads `env.connected i`. Returns the boolean result and
the number of summary checks the loop performed. -/
def relayWaitLoop (env : Env) (t i : Nat) : Bool × Nat :=
  if t < 10000 then
    if env.connected i > 0 then (true, 1)
    else
      let r := relayWaitLoop env (t + 1100) (i + 1)
      (r.1, r.2 + 1)
  else (false, 0)
termination_by 10000 - t
decreasing_by omega

/-- `waitForRelayConnection` (lines 186-226): refresh and check the
summary immediately (after a 100 ms settle delay), return `true` on
`connectedCount > 0`, otherwise poll on the 1000 ms interval until the
10000 ms ceiling. Returns the boolean result and the total number of
summary checks. -/
def waitForRelay (env : Env) : Bool × Nat :=
  if env.connected 0 > 0 then (true, 1)
  else
    let r := relayWaitLoop env 100 1
    (r.1, r.2 + 1)

/-- Outcome of a fallible phase of the body: the state and events so far
plus either the computed value or a raised error. -/
structure Phase where
  state : ProcState
  events : List Ev
  value : Except Unit String

/-- Lines 180-254: the imported branch when no usable local username was
found. Set the `"Loading..."` placeholder, run the bounded relay wait
(its result is only logged), then attempt the fetch; on a found profile
with a truthy username adopt it, otherwise clear the placeholder (a
second `setUsername ""` attempt happens in the inner catch when the first
throws). Returns the value of `currentUsername`. -/
def importedFetch (env : Env) (s : ProcState) : Phase :=
  if env.setNameThrows "Loading..." then
    ⟨s, [Ev.setNameCall "Loading..."], Except.error ()⟩
  else
    let s1 := setNameState s "Loading..."
    let _relay := waitForRelay env
    let evs := [Ev.setNameCall "Loading...", Ev.fetchCall]
    match env.fetchResult with
    | Except.ok r =>
      if r.found && !(r.username.getD "" = "") then
        ⟨s1, evs, Except.ok (r.username.getD "")⟩
      else if env.setNameThrows "" then
        ⟨s1, evs ++ [Ev.setNameCall "", Ev.setNameCall ""], Except.error ()⟩
      else
        ⟨setNameState s1 "", evs ++ [Ev.setNameCall ""], Except.ok ""⟩
    | Except.error _ =>
      if env.setNameThrows "" then
        ⟨s1, evs ++ [Ev.setNameCall ""], Except.error ()⟩
      else
        ⟨setNameState s1 "", evs ++ [Ev.setNameCall ""], Except.ok ""⟩

/-- Lines 160-262: read the seed origin, then resolve `currentUsername`:
imported seeds prefer a usable stored username and otherwise fetch from
the network; any other origin reads the stored username defensively. -/
def resolveName (env : Env) (s : ProcState) : Phase :=
  if s.store.seedOrigin = some "imported" then
    if usableLocal s.store.storedUsername then
      ⟨s, [Ev.readK StoreKey.seedOrigin, Ev.readK StoreKey.storedUsername],
        Except.ok (s.store.storedUsername.getD "")⟩
    else
      let p := importedFetch env s
      ⟨p.state, Ev.readK StoreKey.seedOrigin :: Ev.readK StoreKey.storedUsername :: p.events,
        p.value⟩
  else
    ⟨s, [Ev.readK StoreKey.seedOrigin, Ev.readK StoreKey.storedUsername],
      Except.ok (s.store.storedUsername.getD "")⟩

/-- Lines 159-310: the `try` block of `initializeProfile`. Resolve the
username, delete `portal_seed_origin` unconditionally, create and publish
a fallback profile when the resolved name is blank and the origin was
`generated` or `imported` (re-checking `profile_initialized` first), and
finally write `profile_initialized = "true"`. A raised error anywhere
aborts the rest of the body (`threw = true`). -/
def bodyRun (t : Trig) (s0 : ProcState) : RunOut :=
  let env := t.env
  let origin := s0.store.seedOrigin
  let p := resolveName env s0
  match p.value with
  | Except.error _ => ⟨p.state, p.events, true, ""⟩
  | Except.ok current =>
    let s2 : ProcState := { p.state with store := { p.state.store with seedOrigin := none } }
    let evC := p.events ++ [Ev.deleteK StoreKey.seedOrigin]
    if jsTrim current = "" then
      if origin = some "generated" || origin = some "imported" then
        let evD := evC ++ [Ev.readK StoreKey.initFlag]
        if s2.store.initFlag = some "true" then
          ⟨s2, evD, false, current⟩
        else
          let g := env.gamertag
          if env.setNameThrows g then ⟨s2, evD ++ [Ev.setNameCall g], true, current⟩
          else
            let s3 := setNameState s2 g
            let evE := evD ++ [Ev.setNameCall g, Ev.publishCall g]
            if env.publishThrows then ⟨s3, evE, true, current⟩
            else
              ⟨{ s3 with store := { s3.store with initFlag := some "true" } },
                evE ++ [Ev.writeK StoreKey.initFlag "true"], false, current⟩
      else
        ⟨{ s2 with store := { s2.store with initFlag := some "true" } },
          evC ++ [Ev.writeK StoreKey.initFlag "true"], false, current⟩
    else
      ⟨{ s2 with store := { s2.store with initFlag := some "true" } },
        evC ++ [Ev.writeK StoreKey.initFlag "true"], false, current⟩

/-- One firing of the `initializeProfile` effect (lines 130-320).
Guards in source order: service readiness, public key, `portalApp`
presence, `syncStatus` equal to `"idle"`, the in-progress latch. Then the latch
is set, `profile_initialized` is read, and either the run returns early
(before the `try`, so the latch stays set) or the body runs with the
`finally` clearing the latch on every body outcome. -/
def runFlow (t : Trig) (s : ProcState) : RunOut :=
  if !t.svcReady || t.publicKey = "" || !t.portalApp then
    ⟨s, [], false, ""⟩
  else if !(t.syncStatus = "idle") then
    ⟨s, [], false, ""⟩
  else if s.latch then
    ⟨s, [], false, ""⟩
  else
    let sL : ProcState := { s with latch := true }
    if sL.store.initFlag = some "true" then
      ⟨sL, [Ev.readK StoreKey.initFlag], false, ""⟩
    else
      let out := bodyRun t sL
      ⟨{ out.state with latch := false }, Ev.readK StoreKey.initFlag :: out.events,
        out.threw, out.resolved⟩

/-- A sequence of trigger events processed in order, threading the
process state and concatenating the event logs. -/
def runMany (ts : List Trig) (s : ProcState) : ProcState × List Ev :=
  match ts with
  | [] => (s, [])
  | t :: rest =>
    let out := runFlow t s
    let r := runMany rest out.state
    (r.1, out.events ++ r.2)

/-- The trigger preconditions stated by the spec (section 4.1, items 1-3):
service ready, non-empty public key, idle sync status — together with the
`portalApp` presence the code also demands. -/
def goodTrig (t : Trig) : Prop :=
  t.svcReady = true ∧ t.publicKey ≠ "" ∧ t.portalApp = true ∧ t.syncStatus = "idle"

instance (t : Trig) : Decidable (goodTrig t) := by
  unfold goodTrig; infer_instance

/-- Does the event list contain any profile publish? -/
def hasPublish (evs : List Ev) : Bool :=
  evs.any fun e => match e with | Ev.publishCall _ => true | _ => false

/-- Does the event list contain any store write or delete? -/
def hasStoreWrite (evs : List Ev) : Bool :=
  evs.any fun e => match e with
    | Ev.writeK _ _ => true
    | Ev.deleteK _ => true
    | _ => false

/-- Does the event list contain any username-setter call (which also
persists to the store)? -/
def hasSetName (evs : List Ev) : Bool :=
  evs.any fun e => match e with | Ev.setNameCall _ => true | _ => false

/-- Number of publish calls in the event list. -/
def publishCount (evs : List Ev) : Nat :=
  evs.countP fun e => match e with | Ev.publishCall _ => true | _ => false

/-- Outcome (a) of the spec postcondition: an existing local username is
preserved — the resolved name is the initially stored one, it is
non-blank, and the run made no network calls. -/
def outPreserved (s : ProcState) (out : RunOut) : Prop :=
  s.store.storedUsername = some out.resolved ∧ jsTrim out.resolved ≠ "" ∧
    Ev.fetchCall ∉ out.events ∧ hasPublish out.events = false

/-- Outcome (b) of the spec postcondition: a network-resolved username is
adopted — the fetch was performed, it found a profile whose username is
the non-blank resolved name, and no publish happened. -/
def outAdopted (t : Trig) (out : RunOut) : Prop :=
  t.env.fetchResult = Except.ok ⟨true, some out.resolved⟩ ∧ jsTrim out.resolved ≠ "" ∧
    Ev.fetchCall ∈ out.events ∧ hasPublish out.events = false

/-- Outcome (c) of the spec postcondition: a freshly generated username is
created and published — the generated tag was published and is now the
stored username. -/
def outCreated (t : Trig) (out : RunOut) : Prop :=
  Ev.publishCall t.env.gamertag ∈ out.events ∧
    out.state.store.storedUsername = some t.env.gamertag

/-- Exactly one of three propositions holds. -/
def exactlyOne (a b c : Prop) : Prop :=
  (a ∧ ¬b ∧ ¬c) ∨ (¬a ∧ b ∧ ¬c) ∨ (¬a ∧ ¬b ∧ c)

instance (s : ProcState) (out : RunOut) : Decidable (outPreserved s out) := by
  unfold outPreserved; infer_instance

instance (t : Trig) (out : RunOut) : Decidable (outAdopted t out) := by
  unfold outAdopted; infer_instance

instance (t : Trig) (out : RunOut) : Decidable (outCreated t out) := by
  unfold outCreated; infer_instance

instance (a b c : Prop) [Decidable a] [Decidable b] [Decidable c] :
    Decidable (exactlyOne a b c) := by
  unfold exactlyOne; infer_instance


/-- Sample store contents used to evaluate the theorems on concrete runs. -/
def sampleState (f o u : Option String) : ProcState := ⟨⟨f, o, u⟩, false, ""⟩

/-- Default collaborator behaviour for concrete runs: fetch resolves to
not-found, nothing throws, no relay ever connects. -/
def baseEnv : Env :=
  ⟨Except.ok ⟨false, none⟩, false, fun _ => false, "swift-falcon-77", fun _ => 0⟩

/-- A trigger event satisfying all spec preconditions, with the given
collaborator behaviour. -/
def mkTrig (e : Env) : Trig := ⟨true, "npub1demo", true, "idle", e⟩

/-- The environment of a run whose fallback publish throws. -/
def pubFailEnv : Env := { baseEnv with publishThrows := true }

/-- The environment of a run whose fetch finds the profile `bob`. -/
def bobEnv : Env := { baseEnv with fetchResult := Except.ok ⟨true, some "bob"⟩ }

/-- An environment whose first relay connects immediately. -/
def hitEnv : Env := { baseEnv with connected := fun _ => 1 }

/-- An environment whose relays connect from the fourth summary check on. -/
def lateEnv : Env := { baseEnv with connected := fun i => if 3 ≤ i then 1 else 0 }

lemma jsTrim_empty : jsTrim "" = "" := by decide

lemma usableLocal_some {o : Option String} (h : usableLocal o = true) :
    o = some (o.getD "") ∧ jsTrim (o.getD "") ≠ "" ∧ o.getD "" ≠ "Loading..." := by
  cases o <;> simp_all [usableLocal]

lemma resolveName_imported_usable (env : Env) (s : ProcState)
    (ho : s.store.seedOrigin = some "imported")
    (hu : usableLocal s.store.storedUsername = true) :
    resolveName env s =
      ⟨s, [Ev.readK StoreKey.seedOrigin, Ev.readK StoreKey.storedUsername],
        Except.ok (s.store.storedUsername.getD "")⟩ := by
  simp [resolveName, ho, hu]

lemma resolveName_other (env : Env) (s : ProcState)
    (ho : s.store.seedOrigin ≠ some "imported") :
    resolveName env s =
      ⟨s, [Ev.readK StoreKey.seedOrigin, Ev.readK StoreKey.storedUsername],
        Except.ok (s.store.storedUsername.getD "")⟩ := by
  simp [resolveName, ho]

lemma resolveName_imported_nameThrow (env : Env) (s : ProcState)
    (ho : s.store.seedOrigin = some "imported")
    (hu : usableLocal s.store.storedUsername = false)
    (hL : env.setNameThrows "Loading..." = true) :
    resolveName env s =
      ⟨s, [Ev.readK StoreKey.seedOrigin, Ev.readK StoreKey.storedUsername,
        Ev.setNameCall "Loading..."], Except.error ()⟩ := by
  simp [resolveName, importedFetch, ho, hu, hL]

lemma resolveName_imported_hit (env : Env) (s : ProcState) (r : FetchedProfile)
    (ho : s.store.seedOrigin = some "imported")
    (hu : usableLocal s.store.storedUsername = false)
    (hL : env.setNameThrows "Loading..." = false)
    (hfr : env.fetchResult = Except.ok r)
    (hr : (r.found && !(r.username.getD "" = "")) = true) :
    resolveName env s =
      ⟨setNameState s "Loading...",
        [Ev.readK StoreKey.seedOrigin, Ev.readK StoreKey.storedUsername,
          Ev.setNameCall "Loading...", Ev.fetchCall],
        Except.ok (r.username.getD "")⟩ := by
  simp [resolveName, importedFetch, ho, hu, hL, hfr, hr]

lemma resolveName_imported_miss (env : Env) (s : ProcState) (r : FetchedProfile)
    (ho : s.store.seedOrigin = some "imported")
    (hu : usableLocal s.store.storedUsername = false)
    (hL : env.setNameThrows "Loading..." = false)
    (hfr : env.fetchResult = Except.ok r)
    (hr : (r.found && !(r.username.getD "" = "")) = false)
    (hE : env.setNameThrows "" = false) :
    resolveName env s =
      ⟨setNameState (setNameState s "Loading...") "",
        [Ev.readK StoreKey.seedOrigin, Ev.readK StoreKey.storedUsername,
          Ev.setNameCall "Loading...", Ev.fetchCall, Ev.setNameCall ""],
        Except.ok ""⟩ := by
  simp [resolveName, importedFetch, ho, hu, hL, hfr, hr, hE]

lemma resolveName_imported_missThrow (env : Env) (s : ProcState) (r : FetchedProfile)
    (ho : s.store.seedOrigin = some "imported")
    (hu : usableLocal s.store.storedUsername = false)
    (hL : env.setNameThrows "Loading..." = false)
    (hfr : env.fetchResult = Except.ok r)
    (hr : (r.found && !(r.username.getD "" = "")) = false)
    (hE : env.setNameThrows "" = true) :
    resolveName env s =
      ⟨setNameState s "Loading...",
        [Ev.readK StoreKey.seedOrigin, Ev.readK StoreKey.storedUsername,
          Ev.setNameCall "Loading...", Ev.fetchCall, Ev.setNameCall "", Ev.setNameCall ""],
        Except.error ()⟩ := by
  simp [resolveName, importedFetch, ho, hu, hL, hfr, hr, hE]

lemma resolveName_imported_fetchErr (env : Env) (s : ProcState)
    (ho : s.store.seedOrigin = some "imported")
    (hu : usableLocal s.store.storedUsername = false)
    (hL : env.setNameThrows "Loading..." = false)
    (hfr : env.fetchResult = Except.error ())
    (hE : env.setNameThrows "" = false) :
    resolveName env s =
      ⟨setNameState (setNameState s "Loading...") "",
        [Ev.readK StoreKey.seedOrigin, Ev.readK StoreKey.storedUsername,
          Ev.setNameCall "Loading...", Ev.fetchCall, Ev.setNameCall ""],
        Except.ok ""⟩ := by
  simp [resolveName, importedFetch, ho, hu, hL, hfr, hE]

lemma resolveName_imported_fetchErrThrow (env : Env) (s : ProcState)
    (ho : s.store.seedOrigin = some "imported")
    (hu : usableLocal s.store.storedUsername = false)
    (hL : env.setNameThrows "Loading..." = false)
    (hfr : env.fetchResult = Except.error ())
    (hE : env.setNameThrows "" = true) :
    resolveName env s =
      ⟨setNameState s "Loading...",
        [Ev.readK StoreKey.seedOrigin, Ev.readK StoreKey.storedUsername,
          Ev.setNameCall "Loading...", Ev.fetchCall, Ev.setNameCall ""],
        Except.error ()⟩ := by
  simp [resolveName, importedFetch, ho, hu, hL, hfr, hE]


lemma bodyRun_err (t : Trig) (s s1 : ProcState) (evs : List Ev)
    (hres : resolveName t.env s = ⟨s1, evs, Except.error ()⟩) :
    bodyRun t s = ⟨s1, evs, true, ""⟩ := by
  unfold bodyRun
  dsimp only
  rw [hres]

lemma bodyRun_keep (t : Trig) (s s1 : ProcState) (evs : List Ev) (cur : String)
    (hres : resolveName t.env s = ⟨s1, evs, Except.ok cur⟩)
    (hj : ¬ jsTrim cur = "") :
    bodyRun t s =
      ⟨⟨⟨some "true", none, s1.store.storedUsername⟩, s1.latch, s1.displayName⟩,
        evs ++ [Ev.deleteK StoreKey.seedOrigin, Ev.writeK StoreKey.initFlag "true"],
        false, cur⟩ := by
  unfold bodyRun
  dsimp only
  rw [hres]
  simp [hj]

lemma bodyRun_skip (t : Trig) (s s1 : ProcState) (evs : List Ev) (cur : String)
    (hres : resolveName t.env s = ⟨s1, evs, Except.ok cur⟩)
    (hj : jsTrim cur = "")
    (ho : ¬ (s.store.seedOrigin = some "generated" ∨ s.store.seedOrigin = some "imported")) :
    bodyRun t s =
      ⟨⟨⟨some "true", none, s1.store.storedUsername⟩, s1.latch, s1.displayName⟩,
        evs ++ [Ev.deleteK StoreKey.seedOrigin, Ev.writeK StoreKey.initFlag "true"],
        false, cur⟩ := by
  unfold bodyRun
  dsimp only
  rw [hres]
  simp [hj, ho]

lemma bodyRun_fallback_ok (t : Trig) (s s1 : ProcState) (evs : List Ev) (cur : String)
    (hres : resolveName t.env s = ⟨s1, evs, Except.ok cur⟩)
    (hj : jsTrim cur = "")
    (ho : s.store.seedOrigin = some "generated" ∨ s.store.seedOrigin = some "imported")
    (hflag : ¬ s1.store.initFlag = some "true")
    (hg : t.env.setNameThrows t.env.gamertag = false)
    (hp : t.env.publishThrows = false) :
    bodyRun t s =
      ⟨⟨⟨some "true", none, some t.env.gamertag⟩, s1.latch, t.env.gamertag⟩,
        evs ++ [Ev.deleteK StoreKey.seedOrigin, Ev.readK StoreKey.initFlag,
          Ev.setNameCall t.env.gamertag, Ev.publishCall t.env.gamertag,
          Ev.writeK StoreKey.initFlag "true"],
        false, cur⟩ := by
  unfold bodyRun
  dsimp only
  rw [hres]
  rcases ho with ho | ho <;> simp [hj, ho, hflag, hg, hp, setNameState]

lemma bodyRun_fallback_pubThrow (t : Trig) (s s1 : ProcState) (evs : List Ev) (cur : String)
    (hres : resolveName t.env s = ⟨s1, evs, Except.ok cur⟩)
    (hj : jsTrim cur = "")
    (ho : s.store.seedOrigin = some "generated" ∨ s.store.seedOrigin = some "imported")
    (hflag : ¬ s1.store.initFlag = some "true")
    (hg : t.env.setNameThrows t.env.gamertag = false)
    (hp : t.env.publishThrows = true) :
    bodyRun t s =
      ⟨⟨⟨s1.store.initFlag, none, some t.env.gamertag⟩, s1.latch, t.env.gamertag⟩,
        evs ++ [Ev.deleteK StoreKey.seedOrigin, Ev.readK StoreKey.initFlag,
          Ev.setNameCall t.env.gamertag, Ev.publishCall t.env.gamertag],
        true, cur⟩ := by
  unfold bodyRun
  dsimp only
  rw [hres]
  rcases ho with ho | ho <;> simp [hj, ho, hflag, hg, hp, setNameState]

lemma bodyRun_fallback_nameThrow (t : Trig) (s s1 : ProcState) (evs : List Ev) (cur : String)
    (hres : resolveName t.env s = ⟨s1, evs, Except.ok cur⟩)
    (hj : jsTrim cur = "")
    (ho : s.store.seedOrigin = some "generated" ∨ s.store.seedOrigin = some "imported")
    (hflag : ¬ s1.store.initFlag = some "true")
    (hg : t.env.setNameThrows t.env.gamertag = true) :
    bodyRun t s =
      ⟨⟨⟨s1.store.initFlag, none, s1.store.storedUsername⟩, s1.latch, s1.displayName⟩,
        evs ++ [Ev.deleteK StoreKey.seedOrigin, Ev.readK StoreKey.initFlag,
          Ev.setNameCall t.env.gamertag],
        true, cur⟩ := by
  unfold bodyRun
  dsimp only
  rw [hres]
  rcases ho with ho | ho <;> simp [hj, ho, hflag, hg]

lemma runFlow_body (t : Trig) (s : ProcState)
    (hg : goodTrig t) (hl : s.latch = false)
    (hf : ¬ s.store.initFlag = some "true") :
    runFlow t s =
      ⟨⟨(bodyRun t { s with latch := true }).state.store, false,
          (bodyRun t { s with latch := true }).state.displayName⟩,
        Ev.readK StoreKey.initFlag :: (bodyRun t { s with latch := true }).events,
        (bodyRun t { s with latch := true }).threw,
        (bodyRun t { s with latch := true }).resolved⟩ := by
  obtain ⟨h1, h2, h3, h4⟩ := hg
  simp [runFlow, h1, h2, h3, h4, hl, hf]


lemma importedFetch_initFlag (env : Env) (s : ProcState) :
    (importedFetch env s).state.store.initFlag = s.store.initFlag := by
  unfold importedFetch setNameState
  repeat' split
  all_goals simp_all

lemma resolveName_initFlag (env : Env) (s : ProcState) :
    (resolveName env s).state.store.initFlag = s.store.initFlag := by
  unfold resolveName
  repeat' split
  all_goals simp_all [importedFetch_initFlag]

lemma resolveName_publishCount (env : Env) (s : ProcState) :
    publishCount (resolveName env s).events = 0 := by
  unfold resolveName importedFetch
  repeat' split
  all_goals simp [publishCount]

lemma publishCount_eq_zero {l : List Ev} (h : publishCount l = 0) (g : String) :
    Ev.publishCall g ∉ l := by
  intro hm
  simp only [publishCount, List.countP_eq_zero] at h
  exact absurd (h _ hm) (by simp)

lemma resolveName_seedRead (env : Env) (s : ProcState) :
    Ev.readK StoreKey.seedOrigin ∈ (resolveName env s).events := by
  unfold resolveName importedFetch
  repeat' split
  all_goals simp

lemma bodyRun_seedRead (t : Trig) (s : ProcState) :
    Ev.readK StoreKey.seedOrigin ∈ (bodyRun t s).events := by
  unfold bodyRun
  dsimp only
  repeat' split
  all_goals simp [resolveName_seedRead]

lemma bodyRun_seed_none (t : Trig) (s : ProcState) :
    (bodyRun t s).threw = false → (bodyRun t s).state.store.seedOrigin = none := by
  unfold bodyRun
  dsimp only
  repeat' split
  all_goals simp_all [setNameState]

lemma bodyRun_flag_set (t : Trig) (s : ProcState) (h0 : ¬ s.store.initFlag = some "true") :
    (bodyRun t s).threw = false → (bodyRun t s).state.store.initFlag = some "true" := by
  unfold bodyRun
  dsimp only
  repeat' split
  all_goals simp_all [setNameState, resolveName_initFlag]

lemma bodyRun_threw_flag (t : Trig) (s : ProcState) :
    (bodyRun t s).threw = true → (bodyRun t s).state.store.initFlag = s.store.initFlag := by
  unfold bodyRun
  dsimp only
  repeat' split
  all_goals simp_all [setNameState, resolveName_initFlag]

lemma publishCount_append (a b : List Ev) :
    publishCount (a ++ b) = publishCount a + publishCount b := by
  simp [publishCount, List.countP_append]

lemma bodyRun_publishCount (t : Trig) (s : ProcState) :
    publishCount (bodyRun t s).events ≤ 1 := by
  unfold bodyRun
  dsimp only
  repeat' split
  all_goals simp only [publishCount_append, resolveName_publishCount]
  all_goals simp [publishCount]

lemma bodyRun_publish_throws (t : Trig) (s : ProcState) (g : String)
    (hp : t.env.publishThrows = true) :
    Ev.publishCall g ∈ (bodyRun t s).events →
      (bodyRun t s).threw = true ∧ publishCount (bodyRun t s).events = 1 := by
  unfold bodyRun
  dsimp only
  repeat' split
  all_goals intro hm
  all_goals try dsimp only at hm
  all_goals
    simp [List.mem_append,
      publishCount_eq_zero (resolveName_publishCount t.env s) g] at hm
  all_goals refine ⟨rfl, ?_⟩
  all_goals dsimp only
  all_goals simp only [publishCount_append, resolveName_publishCount]
  all_goals simp [publishCount]


lemma runFlow_flagTrue (t : Trig) (s : ProcState)
    (hf : s.store.initFlag = some "true") :
    (runFlow t s).state.store = s.store ∧
      ((runFlow t s).events = [] ∨ (runFlow t s).events = [Ev.readK StoreKey.initFlag]) := by
  unfold runFlow
  dsimp only
  repeat' split
  all_goals simp_all

lemma runFlow_threw (t : Trig) (s : ProcState) :
    (runFlow t s).threw = true →
      (runFlow t s).state.store.initFlag = s.store.initFlag ∧
        ¬ (runFlow t s).state.store.initFlag = some "true" ∧
        (runFlow t s).state.latch = false := by
  unfold runFlow
  dsimp only
  repeat' split
  all_goals intro hth
  all_goals try simp_all
  case _ h1 h2 h3 hfl =>
    have hfg := bodyRun_threw_flag t { s with latch := true } hth
    simp_all

lemma runFlow_enters (t : Trig) (s : ProcState)
    (hg : goodTrig t) (hl : s.latch = false)
    (hf : ¬ s.store.initFlag = some "true") :
    Ev.readK StoreKey.seedOrigin ∈ (runFlow t s).events := by
  rw [runFlow_body t s hg hl hf]
  simp [bodyRun_seedRead]

lemma relayWaitLoop_bound (env : Env) :
    ∀ n t i, 10000 ≤ t + 1100 * n → (relayWaitLoop env t i).2 ≤ n := by
  intro n
  induction n with
  | zero =>
    intro t i h
    rw [relayWaitLoop]
    simp only
    split
    · omega
    · simp
  | succ n ih =>
    intro t i h
    rw [relayWaitLoop]
    simp only
    split
    · split
      · simp
      · have := ih (t + 1100) (i + 1) (by omega)
        simp only
        omega
    · simp

lemma relayWaitLoop_allZero (env : Env) (hz : ∀ j, env.connected j = 0) :
    ∀ n t i, 10000 ≤ t + 1100 * n → (∀ m, m < n → t + 1100 * m < 10000) →
      relayWaitLoop env t i = (false, n) := by
  intro n
  induction n with
  | zero =>
    intro t i h _
    rw [relayWaitLoop]
    simp only
    split
    · omega
    · rfl
  | succ n ih =>
    intro t i h hlt
    rw [relayWaitLoop]
    have ht : t < 10000 := by have := hlt 0 (by omega); omega
    simp only [if_pos ht, hz i]
    have := ih (t + 1100) (i + 1) (by omega) (fun m hm => by
      have := hlt (m + 1) (by omega)
      omega)
    simp [this]

lemma relayWaitLoop_find (env : Env) :
    ∀ k t i, (∀ j, j < k → env.connected (i + j) = 0) → env.connected (i + k) > 0 →
      (∀ m, m ≤ k → t + 1100 * m < 10000) →
      relayWaitLoop env t i = (true, k + 1) := by
  intro k
  induction k with
  | zero =>
    intro t i _ hk ht
    rw [relayWaitLoop]
    have h0 : t < 10000 := by have := ht 0 (by omega); omega
    simp only [if_pos h0]
    simp only [Nat.add_zero] at hk
    simp [hk]
  | succ k ih =>
    intro t i hz hk ht
    rw [relayWaitLoop]
    have h0 : t < 10000 := by have := ht 0 (by omega); omega
    have hi0 : env.connected i = 0 := by have := hz 0 (by omega); simpa using this
    simp only [if_pos h0, hi0]
    have := ih (t + 1100) (i + 1)
      (fun j hj => by have := hz (j + 1) (by omega); simpa [Nat.add_assoc, Nat.add_comm 1 j] using this)
      (by have : i + 1 + k = i + (k + 1) := by omega
          rw [this]; exact hk)
      (fun m hm => by have := ht (m + 1) (by omega); omega)
    simp [this]

lemma waitForRelay_bound (env : Env) : (waitForRelay env).2 ≤ 10 := by
  unfold waitForRelay
  split
  · simp
  · have := relayWaitLoop_bound env 9 100 1 (by omega)
    simp only
    omega

lemma waitForRelay_immediate (env : Env) (h : env.connected 0 > 0) :
    waitForRelay env = (true, 1) := by
  simp [waitForRelay, h]

lemma waitForRelay_allZero (env : Env) (hz : ∀ j, env.connected j = 0) :
    waitForRelay env = (false, 10) := by
  have h9 := relayWaitLoop_allZero env hz 9 100 1 (by omega) (fun m hm => by omega)
  simp [waitForRelay, hz 0, h9]

lemma waitForRelay_find (env : Env) (k : Nat) (hk : k < 10)
    (hz : ∀ j, j < k → env.connected j = 0) (hc : env.connected k > 0) :
    waitForRelay env = (true, k + 1) := by
  rcases Nat.eq_zero_or_pos k with h0 | h0
  · subst h0
    exact waitForRelay_immediate env hc
  · have hz0 : env.connected 0 = 0 := hz 0 h0
    have := relayWaitLoop_find env (k - 1) 100 1
      (fun j hj => by have := hz (1 + j) (by omega); simpa using this)
      (by have : 1 + (k - 1) = k := by omega
          rw [this]; exact hc)
      (fun m hm => by omega)
    simp [waitForRelay, hz0, this]
    omega


/-- C5 (amended): after a successful (non-throwing) run that entered the
body, `profile_initialized` is `"true"` and `portal_seed_origin` is absent;
and when the seed origin was `generated` or `imported`, exactly one of the
three outcomes holds — (a) an existing local username preserved, (b) a
network-resolved username adopted, (c) a fresh username created and
published. With an absent or unrecognized origin and no stored username,
none of the three outcomes holds (see the counterexample), so the
exactly-one trichotomy is restricted to recognized origins. -/
theorem successfulRunOutcomes (t : Trig) (s : ProcState)
    (hg : goodTrig t) (hl : s.latch = false)
    (hf : ¬ s.store.initFlag = some "true")
    (ho : s.store.seedOrigin = some "generated" ∨ s.store.seedOrigin = some "imported") :
    (runFlow t s).threw = false →
      (runFlow t s).state.store.initFlag = some "true" ∧
      (runFlow t s).state.store.seedOrigin = none ∧
      exactlyOne (outPreserved s (runFlow t s)) (outAdopted t (runFlow t s))
        (outCreated t (runFlow t s)) := by
  intro hnt
  have hrb := runFlow_body t s hg hl hf
  have hfL : ¬ ({ s with latch := true } : ProcState).store.initFlag = some "true" := by
    simpa using hf
  rcases ho with ho | ho
  · -- generated seed
    have hres := resolveName_other t.env { s with latch := true } (by simp [ho])
    by_cases hj : jsTrim (s.store.storedUsername.getD "") = ""
    · -- blank resolved name: fallback branch must have succeeded
      cases hgam : t.env.setNameThrows t.env.gamertag
      · cases hpub : t.env.publishThrows
        · have hb := bodyRun_fallback_ok t { s with latch := true } _ _ _ hres
            (by simpa using hj) (by simp [ho]) hfL hgam hpub
          have hrun := hrb.trans (by rw [hb])
          rw [hrun]
          simp [exactlyOne, outPreserved, outAdopted, outCreated, hasPublish]
        · have hb := bodyRun_fallback_pubThrow t { s with latch := true } _ _ _ hres
            (by simpa using hj) (by simp [ho]) hfL hgam hpub
          rw [hrb, hb] at hnt
          simp at hnt
      · have hb := bodyRun_fallback_nameThrow t { s with latch := true } _ _ _ hres
          (by simpa using hj) (by simp [ho]) hfL hgam
        rw [hrb, hb] at hnt
        simp at hnt
    · -- non-blank stored name: preserved
      have hb := bodyRun_keep t { s with latch := true } _ _ _ hres (by simpa using hj)
      have hrun := hrb.trans (by rw [hb])
      rcases hsu : s.store.storedUsername with _ | u
      · exact absurd (by simp [hsu, jsTrim_empty]) hj
      · rw [hsu] at hj
        simp only [Option.getD_some] at hj
        rw [hrun]
        simp [exactlyOne, outPreserved, outAdopted, outCreated, hasPublish, hsu, hj]
  · -- imported seed
    cases hu : usableLocal s.store.storedUsername
    · -- no usable local profile: fetch path
      cases hL : t.env.setNameThrows "Loading..."
      · rcases hfr : t.env.fetchResult with e | r
        · -- fetch threw
          cases hE : t.env.setNameThrows ""
          · have hres := resolveName_imported_fetchErr t.env { s with latch := true }
              (by simpa using ho) (by simpa using hu) hL (by cases e; exact hfr) hE
            cases hgam : t.env.setNameThrows t.env.gamertag
            · cases hpub : t.env.publishThrows
              · have hb := bodyRun_fallback_ok t { s with latch := true } _ _ _ hres
                  (by simp [jsTrim_empty]) (by simp [ho]) (by simp [setNameState]; simpa using hf) hgam hpub
                have hrun := hrb.trans (by rw [hb])
                rw [hrun]
                simp [exactlyOne, outPreserved, outAdopted, outCreated, hasPublish, setNameState]
              · have hb := bodyRun_fallback_pubThrow t { s with latch := true } _ _ _ hres
                  (by simp [jsTrim_empty]) (by simp [ho]) (by simp [setNameState]; simpa using hf) hgam hpub
                rw [hrb, hb] at hnt
                simp at hnt
            · have hb := bodyRun_fallback_nameThrow t { s with latch := true } _ _ _ hres
                (by simp [jsTrim_empty]) (by simp [ho]) (by simp [setNameState]; simpa using hf) hgam
              rw [hrb, hb] at hnt
              simp at hnt
          · have hres := resolveName_imported_fetchErrThrow t.env { s with latch := true }
              (by simpa using ho) (by simpa using hu) hL (by cases e; exact hfr) hE
            have hb := bodyRun_err t { s with latch := true } _ _ hres
            rw [hrb, hb] at hnt
            simp at hnt
        · -- fetch returned
          cases hr : (r.found && !(r.username.getD "" = ""))
          · -- miss or blank username
            cases hE : t.env.setNameThrows ""
            · have hres := resolveName_imported_miss t.env { s with latch := true } r
                (by simpa using ho) (by simpa using hu) hL hfr hr hE
              cases hgam : t.env.setNameThrows t.env.gamertag
              · cases hpub : t.env.publishThrows
                · have hb := bodyRun_fallback_ok t { s with latch := true } _ _ _ hres
                    (by simp [jsTrim_empty]) (by simp [ho]) (by simp [setNameState]; simpa using hf) hgam hpub
                  have hrun := hrb.trans (by rw [hb])
                  rw [hrun]
                  simp [exactlyOne, outPreserved, outAdopted, outCreated, hasPublish, setNameState]
                · have hb := bodyRun_fallback_pubThrow t { s with latch := true } _ _ _ hres
                    (by simp [jsTrim_empty]) (by simp [ho]) (by simp [setNameState]; simpa using hf) hgam hpub
                  rw [hrb, hb] at hnt
                  simp at hnt
              · have hb := bodyRun_fallback_nameThrow t { s with latch := true } _ _ _ hres
                  (by simp [jsTrim_empty]) (by simp [ho]) (by simp [setNameState]; simpa using hf) hgam
                rw [hrb, hb] at hnt
                simp at hnt
            · have hres := resolveName_imported_missThrow t.env { s with latch := true } r
                (by simpa using ho) (by simpa using hu) hL hfr hr hE
              have hb := bodyRun_err t { s with latch := true } _ _ hres
              rw [hrb, hb] at hnt
              simp at hnt
          · -- found a profile with a truthy username
            have hres := resolveName_imported_hit t.env { s with latch := true } r
              (by simpa using ho) (by simpa using hu) hL hfr hr
            by_cases hj : jsTrim (r.username.getD "") = ""
            · cases hgam : t.env.setNameThrows t.env.gamertag
              · cases hpub : t.env.publishThrows
                · have hb := bodyRun_fallback_ok t { s with latch := true } _ _ _ hres
                    hj (by simp [ho]) (by simp [setNameState]; simpa using hf) hgam hpub
                  have hrun := hrb.trans (by rw [hb])
                  rw [hrun]
                  simp [exactlyOne, outPreserved, outAdopted, outCreated, hasPublish, setNameState]
                · have hb := bodyRun_fallback_pubThrow t { s with latch := true } _ _ _ hres
                    hj (by simp [ho]) (by simp [setNameState]; simpa using hf) hgam hpub
                  rw [hrb, hb] at hnt
                  simp at hnt
              · have hb := bodyRun_fallback_nameThrow t { s with latch := true } _ _ _ hres
                  hj (by simp [ho]) (by simp [setNameState]; simpa using hf) hgam
                rw [hrb, hb] at hnt
                simp at hnt
            · have hb := bodyRun_keep t { s with latch := true } _ _ _ hres hj
              have hrun := hrb.trans (by rw [hb])
              rw [hrun]
              have hru : r.username = some (r.username.getD "") := by
                rcases hru0 : r.username with _ | u
                · simp [hru0] at hr
                · simp [hru0]
              have hrf : r.found = true := by
                rcases hrf0 : r.found
                · simp [hrf0] at hr
                · rfl
              have hfr2 : t.env.fetchResult = Except.ok ⟨true, some (r.username.getD "")⟩ := by
                rw [hfr]
                congr 1
                rcases r with ⟨f, uo⟩
                simp at hrf hru ⊢
                exact ⟨hrf, hru⟩
              simp [exactlyOne, outPreserved, outAdopted, outCreated, hasPublish, hfr2, hj]
      · -- the placeholder setter threw
        have hres := resolveName_imported_nameThrow t.env { s with latch := true }
          (by simpa using ho) (by simpa using hu) hL
        have hb := bodyRun_err t { s with latch := true } _ _ hres
        rw [hrb, hb] at hnt
        simp at hnt
    · -- usable local profile: preserved
      rcases hsu : s.store.storedUsername with _ | u
      · rw [hsu] at hu
        simp [usableLocal] at hu
      · rw [hsu] at hu
        simp [usableLocal] at hu
        have hres := resolveName_imported_usable t.env { s with latch := true }
          (by simpa using ho) (by simp [usableLocal, hsu, hu.1, hu.2])
        have hb := bodyRun_keep t { s with latch := true } _ _ _ hres
          (by simp [hsu, hu.1])
        have hrun := hrb.trans (by rw [hb])
        rw [hrun]
        simp [exactlyOne, outPreserved, outAdopted, outCreated, hasPublish, hsu, hu.1]


lemma hasPublish_append (a b : List Ev) :
    hasPublish (a ++ b) = (hasPublish a || hasPublish b) := by
  simp [hasPublish]

lemma hasStoreWrite_cons_read (k : StoreKey) (l : List Ev) :
    hasStoreWrite (Ev.readK k :: l) = hasStoreWrite l := by
  simp [hasStoreWrite]

lemma hasSetName_cons_read (k : StoreKey) (l : List Ev) :
    hasSetName (Ev.readK k :: l) = hasSetName l := by
  simp [hasSetName]

lemma hasPublish_cons_read (k : StoreKey) (l : List Ev) :
    hasPublish (Ev.readK k :: l) = hasPublish l := by
  simp [hasPublish]

lemma hasStoreWrite_append (a b : List Ev) :
    hasStoreWrite (a ++ b) = (hasStoreWrite a || hasStoreWrite b) := by
  simp [hasStoreWrite]

lemma hasSetName_append (a b : List Ev) :
    hasSetName (a ++ b) = (hasSetName a || hasSetName b) := by
  simp [hasSetName]

lemma bodyRun_keepsMem (t : Trig) (s : ProcState) (e : Ev)
    (hmem : e ∈ (resolveName t.env s).events) : e ∈ (bodyRun t s).events := by
  unfold bodyRun
  dsimp only
  repeat' split
  all_goals simp [hmem]

lemma resolveName_fetch (env : Env) (s : ProcState)
    (ho : s.store.seedOrigin = some "imported")
    (hu : usableLocal s.store.storedUsername = false)
    (hL : env.setNameThrows "Loading..." = false) :
    Ev.fetchCall ∈ (resolveName env s).events := by
  unfold resolveName importedFetch
  simp only [ho, hu, hL]
  repeat' split
  all_goals simp_all

/-- C1 (amended): when a run reaches the generate-and-publish branch and
`setUserProfile` throws, the failure is caught at the top level, the
publish is not retried within the flow (exactly one publish call in the
event log), and the in-progress latch is cleared — but
`profile_initialized` is NOT set afterward: it keeps its initial
(non-`"true"`) value, because the flag write at the end of the `try` block
is skipped by the thrown error. -/
theorem fallbackPublishFailure (t : Trig) (s : ProcState)
    (hp : t.env.publishThrows = true) :
    Ev.publishCall t.env.gamertag ∈ (runFlow t s).events →
      (runFlow t s).threw = true ∧
      publishCount (runFlow t s).events = 1 ∧
      (runFlow t s).state.store.initFlag = s.store.initFlag ∧
      ¬ (runFlow t s).state.store.initFlag = some "true" ∧
      (runFlow t s).state.latch = false := by
  unfold runFlow
  dsimp only
  repeat' split
  all_goals intro hm
  all_goals try simp at hm
  rename_i hno
  obtain ⟨hth, hcnt⟩ := bodyRun_publish_throws t { s with latch := true } t.env.gamertag hp hm
  have hfg := bodyRun_threw_flag t { s with latch := true } hth
  have hc2 : publishCount (Ev.readK StoreKey.initFlag ::
      (bodyRun t { s with latch := true }).events) =
      publishCount (bodyRun t { s with latch := true }).events := by
    simp [publishCount]
  refine ⟨hth, ?_, ?_, ?_, rfl⟩
  · rw [hc2, hcnt]
  · simpa using hfg
  · simp only [hfg]
    simpa using hno

/-- C2: if `setUserProfile` or any step before the flag-set throws an
uncaught error, `profile_initialized` keeps its initial value (and is not
`"true"`), the in-progress latch is cleared, and every subsequent
qualifying trigger re-enters the flow body from step 1 (the seed-origin
read appears in the events of the next run). -/
theorem crashRecovery (t : Trig) (s : ProcState) :
    (runFlow t s).threw = true →
      (runFlow t s).state.store.initFlag = s.store.initFlag ∧
      ¬ (runFlow t s).state.store.initFlag = some "true" ∧
      (runFlow t s).state.latch = false ∧
      ∀ t2 : Trig, goodTrig t2 →
        Ev.readK StoreKey.seedOrigin ∈ (runFlow t2 (runFlow t s).state).events := by
  intro h
  obtain ⟨h1, h2, h3⟩ := runFlow_threw t s h
  exact ⟨h1, h2, h3, fun t2 hg2 => runFlow_enters t2 _ hg2 h3 h2⟩

/-- C3 (amended): when the idempotence guard finds `profile_initialized`
already `"true"`, the run returns without further action (the store is
untouched and the only event is the flag read) — but the in-progress latch
is NOT cleared on this path: the early return sits before the `try`, so the
`finally` cleanup never runs and the latch stays set. The latch is cleared
only on runs that enter the body. -/
theorem guardEarlyReturn (t : Trig) (s : ProcState)
    (hg : goodTrig t) (hl : s.latch = false) :
    (s.store.initFlag = some "true" →
      runFlow t s =
        ⟨{ s with latch := true }, [Ev.readK StoreKey.initFlag], false, ""⟩) ∧
    (¬ s.store.initFlag = some "true" → (runFlow t s).state.latch = false) := by
  obtain ⟨h1, h2, h3, h4⟩ := hg
  constructor
  · intro hf
    simp [runFlow, h1, h2, h3, h4, hl, hf]
  · intro hf
    rw [runFlow_body t s ⟨h1, h2, h3, h4⟩ hl hf]

/-- C8: after any completed (non-throwing) run of the flow body,
`portal_seed_origin` is absent from the store, for every origin value and
every fetch or publish outcome. -/
theorem seedOriginConsumed (t : Trig) (s : ProcState)
    (hg : goodTrig t) (hl : s.latch = false)
    (hf : ¬ s.store.initFlag = some "true") :
    (runFlow t s).threw = false → (runFlow t s).state.store.seedOrigin = none := by
  intro h
  rw [runFlow_body t s hg hl hf] at h ⊢
  exact bodyRun_seed_none t { s with latch := true } h

/-- C9: if `nostrService.portalApp` is absent, the run is a complete no-op
regardless of every other precondition: state unchanged (latch included),
no events at all. -/
theorem portalAppGate (t : Trig) (s : ProcState) (h : t.portalApp = false) :
    runFlow t s = ⟨s, [], false, ""⟩ := by
  simp [runFlow, h]

/-- C7: once `profile_initialized` is `"true"`, every further sequence of
trigger events leaves the store unchanged and performs zero store writes
or deletes, zero username-setter calls, and zero network calls (neither
fetch nor publish). -/
theorem idempotentAfterCompletion (ts : List Trig) (s : ProcState)
    (h : s.store.initFlag = some "true") :
    (runMany ts s).1.store = s.store ∧
    hasStoreWrite (runMany ts s).2 = false ∧
    hasSetName (runMany ts s).2 = false ∧
    Ev.fetchCall ∉ (runMany ts s).2 ∧
    hasPublish (runMany ts s).2 = false := by
  induction ts generalizing s with
  | nil => simp [runMany, hasStoreWrite, hasSetName, hasPublish]
  | cons t ts ih =>
    obtain ⟨hs, hev⟩ := runFlow_flagTrue t s h
    have h2 : (runFlow t s).state.store.initFlag = some "true" := by rw [hs]; exact h
    obtain ⟨ih1, ih2, ih3, ih4, ih5⟩ := ih (runFlow t s).state h2
    unfold runMany
    dsimp only
    refine ⟨ih1.trans hs, ?_, ?_, ?_, ?_⟩
    · rcases hev with hev | hev <;>
        simp only [hev, List.cons_append, List.nil_append, hasStoreWrite_cons_read] <;>
        exact ih2
    · rcases hev with hev | hev <;>
        simp only [hev, List.cons_append, List.nil_append, hasSetName_cons_read] <;>
        exact ih3
    · rcases hev with hev | hev <;>
        simp only [hev, List.cons_append, List.nil_append] <;>
        simp [ih4]
    · rcases hev with hev | hev <;>
        simp only [hev, List.cons_append, List.nil_append, hasPublish_cons_read] <;>
        exact ih5

/-- C10: the sentinel filtering of the imported branch is absent from the
non-imported branch — a run with origin `generated` and stored username
equal to the placeholder `Loading...` adopts `Loading...` as the resolved
username, performs no fetch, no publish and no setter call, and still sets
`profile_initialized` to `"true"`. -/
theorem generatedSentinelAdopted (t : Trig) (s : ProcState)
    (hg : goodTrig t) (hl : s.latch = false)
    (hf : ¬ s.store.initFlag = some "true")
    (ho : s.store.seedOrigin = some "generated")
    (hu : s.store.storedUsername = some "Loading...") :
    (runFlow t s).resolved = "Loading..." ∧
    hasPublish (runFlow t s).events = false ∧
    hasSetName (runFlow t s).events = false ∧
    Ev.fetchCall ∉ (runFlow t s).events ∧
    (runFlow t s).state.store.initFlag = some "true" ∧
    (runFlow t s).threw = false := by
  have hres := resolveName_other t.env { s with latch := true } (by simp [ho])
  have hb := bodyRun_keep t { s with latch := true } _ _ _ hres
    (by simp [hu]; decide)
  have hrun := (runFlow_body t s hg hl hf).trans (by rw [hb])
  rw [hrun]
  simp [hasPublish, hasSetName, hu]

/-- C6: the bounded connectivity wait checks the summary immediately and
then on the 1-second polling interval, performs at most 10 checks in
total, stops early at the first check with `connectedCount > 0` (the k-th
zero-prefixed positive check gives result `(true, k + 1)`), returns
`(false, 10)` when no relay ever connects, and in every case the flow
proceeds to the profile fetch afterward. -/
theorem boundedConnectivityWait (env : Env) (t : Trig) (s : ProcState) :
    (waitForRelay env).2 ≤ 10 ∧
    (env.connected 0 > 0 → waitForRelay env = (true, 1)) ∧
    ((∀ i, env.connected i = 0) → waitForRelay env = (false, 10)) ∧
    (∀ k, k < 10 → (∀ j, j < k → env.connected j = 0) → env.connected k > 0 →
      waitForRelay env = (true, k + 1)) ∧
    (goodTrig t → s.latch = false → ¬ s.store.initFlag = some "true" →
      s.store.seedOrigin = some "imported" →
      usableLocal s.store.storedUsername = false →
      t.env.setNameThrows "Loading..." = false →
      Ev.fetchCall ∈ (runFlow t s).events) := by
  refine ⟨waitForRelay_bound env, waitForRelay_immediate env,
    waitForRelay_allZero env, waitForRelay_find env, ?_⟩
  intro hg hl hf ho hu hL
  rw [runFlow_body t s hg hl hf]
  have := bodyRun_keepsMem t { s with latch := true } Ev.fetchCall
    (resolveName_fetch t.env { s with latch := true } (by simpa using ho)
      (by simpa using hu) hL)
  simp [this]


/-- C4: evaluated run for the imported-seed network-hit scenario: the fetch
resolves to `bob` and the flow adopts it only into its local variable, while
LocalProfileState keeps the `Loading...` placeholder set in step 3b — the
flow never calls the username setter with the fetched name. -/
theorem importedHitPlaceholderStays :
    (runFlow (mkTrig bobEnv) (sampleState none (some "imported") none)).threw = false ∧
    (runFlow (mkTrig bobEnv) (sampleState none (some "imported") none)).resolved = "bob" ∧
    (runFlow (mkTrig bobEnv)
      (sampleState none (some "imported") none)).state.displayName = "Loading..." ∧
    (runFlow (mkTrig bobEnv)
      (sampleState none (some "imported") none)).state.store.storedUsername =
      some "Loading..." ∧
    (runFlow (mkTrig bobEnv)
      (sampleState none (some "imported") none)).state.store.initFlag = some "true" := by
  decide

/-- C1 counterexample: a run that reaches the generate-and-publish branch
with a throwing publish ends with `profile_initialized` NOT set. -/
theorem fallbackPublishFlag_cex :
    Ev.publishCall "swift-falcon-77" ∈
      (runFlow (mkTrig pubFailEnv) (sampleState none (some "generated") none)).events ∧
    ¬ (runFlow (mkTrig pubFailEnv)
        (sampleState none (some "generated") none)).state.store.initFlag = some "true" := by
  decide

/-- C1 witness: the amended claim evaluated on a concrete publish-failure run. -/
theorem fallbackPublishFailure_witness :
    (runFlow (mkTrig pubFailEnv) (sampleState none (some "generated") none)).threw = true ∧
    publishCount
      (runFlow (mkTrig pubFailEnv) (sampleState none (some "generated") none)).events = 1 ∧
    (runFlow (mkTrig pubFailEnv)
        (sampleState none (some "generated") none)).state.store.initFlag =
      (sampleState none (some "generated") none).store.initFlag ∧
    ¬ (runFlow (mkTrig pubFailEnv)
        (sampleState none (some "generated") none)).state.store.initFlag = some "true" ∧
    (runFlow (mkTrig pubFailEnv) (sampleState none (some "generated") none)).state.latch =
      false :=
  fallbackPublishFailure (mkTrig pubFailEnv) (sampleState none (some "generated") none)
    (by decide) (by decide)

/-- C2 witness: crash recovery evaluated on a run whose publish throws,
followed by a fresh qualifying trigger that re-enters the body. -/
theorem crashRecovery_witness :
    (runFlow (mkTrig pubFailEnv)
        (sampleState none (some "generated") none)).state.store.initFlag =
      (sampleState none (some "generated") none).store.initFlag ∧
    ¬ (runFlow (mkTrig pubFailEnv)
        (sampleState none (some "generated") none)).state.store.initFlag = some "true" ∧
    (runFlow (mkTrig pubFailEnv)
      (sampleState none (some "generated") none)).state.latch = false ∧
    Ev.readK StoreKey.seedOrigin ∈
      (runFlow (mkTrig baseEnv)
        (runFlow (mkTrig pubFailEnv)
          (sampleState none (some "generated") none)).state).events := by
  have h := crashRecovery (mkTrig pubFailEnv) (sampleState none (some "generated") none)
    (by decide)
  exact ⟨h.1, h.2.1, h.2.2.1, h.2.2.2 (mkTrig baseEnv) (by decide)⟩

/-- C3 counterexample: when the guard finds the flag already `true`, the
run ends with the in-progress latch still set, not cleared. -/
theorem guardEarlyReturn_cex :
    (runFlow (mkTrig baseEnv) (sampleState (some "true") none none)).state.latch = true ∧
    (runFlow (mkTrig baseEnv) (sampleState (some "true") none none)).events =
      [Ev.readK StoreKey.initFlag] := by
  decide

/-- C3 witness: the amended claim evaluated on concrete early-return and
body-entering runs. -/
theorem guardEarlyReturn_witness :
    runFlow (mkTrig baseEnv) (sampleState (some "true") none none) =
      ⟨{ sampleState (some "true") none none with latch := true },
        [Ev.readK StoreKey.initFlag], false, ""⟩ ∧
    (runFlow (mkTrig baseEnv) (sampleState none none none)).state.latch = false := by
  exact ⟨(guardEarlyReturn (mkTrig baseEnv) (sampleState (some "true") none none)
      (by decide) (by decide)).1 (by decide),
    (guardEarlyReturn (mkTrig baseEnv) (sampleState none none none)
      (by decide) (by decide)).2 (by decide)⟩

/-- C5 counterexample: with the seed origin absent and no stored username,
a successful run sets the flag yet realises none of the three outcomes. -/
theorem successfulRunOutcomes_cex :
    (runFlow (mkTrig baseEnv) (sampleState none none none)).threw = false ∧
    ¬ exactlyOne
        (outPreserved (sampleState none none none)
          (runFlow (mkTrig baseEnv) (sampleState none none none)))
        (outAdopted (mkTrig baseEnv) (runFlow (mkTrig baseEnv) (sampleState none none none)))
        (outCreated (mkTrig baseEnv)
          (runFlow (mkTrig baseEnv) (sampleState none none none))) := by
  decide

/-- C5 witness: the amended postcondition evaluated on a generated-seed run
that preserves the stored username `alice`. -/
theorem successfulRunOutcomes_witness :
    (runFlow (mkTrig baseEnv)
      (sampleState none (some "generated") (some "alice"))).state.store.initFlag =
      some "true" ∧
    (runFlow (mkTrig baseEnv)
      (sampleState none (some "generated") (some "alice"))).state.store.seedOrigin = none ∧
    exactlyOne
      (outPreserved (sampleState none (some "generated") (some "alice"))
        (runFlow (mkTrig baseEnv) (sampleState none (some "generated") (some "alice"))))
      (outAdopted (mkTrig baseEnv)
        (runFlow (mkTrig baseEnv) (sampleState none (some "generated") (some "alice"))))
      (outCreated (mkTrig baseEnv)
        (runFlow (mkTrig baseEnv) (sampleState none (some "generated") (some "alice")))) :=
  successfulRunOutcomes (mkTrig baseEnv)
    (sampleState none (some "generated") (some "alice"))
    (by decide) (by decide) (by decide) (by decide) (by decide)

/-- C6 witness: the bounded wait evaluated on concrete connectivity
histories, and the fetch reached on a concrete imported-seed run. -/
theorem boundedConnectivityWait_witness :
    (waitForRelay baseEnv).2 ≤ 10 ∧
    waitForRelay hitEnv = (true, 1) ∧
    waitForRelay baseEnv = (false, 10) ∧
    waitForRelay lateEnv = (true, 4) ∧
    Ev.fetchCall ∈
      (runFlow (mkTrig baseEnv) (sampleState none (some "imported") none)).events := by
  refine ⟨(boundedConnectivityWait baseEnv (mkTrig baseEnv)
      (sampleState none (some "imported") none)).1,
    (boundedConnectivityWait hitEnv (mkTrig baseEnv)
      (sampleState none (some "imported") none)).2.1 (by decide),
    (boundedConnectivityWait baseEnv (mkTrig baseEnv)
      (sampleState none (some "imported") none)).2.2.1 (fun i => rfl),
    (boundedConnectivityWait lateEnv (mkTrig baseEnv)
      (sampleState none (some "imported") none)).2.2.2.1 3 (by decide) (by decide)
      (by decide),
    (boundedConnectivityWait baseEnv (mkTrig baseEnv)
      (sampleState none (some "imported") none)).2.2.2.2 (by decide) (by decide)
      (by decide) (by decide) (by decide) (by decide)⟩

/-- C7 witness: two further trigger events after completion leave the store
untouched and produce no writes, no setter calls, and no network calls. -/
theorem idempotentAfterCompletion_witness :
    (runMany [mkTrig baseEnv, mkTrig bobEnv]
      (sampleState (some "true") (some "imported") (some "alice"))).1.store =
      (sampleState (some "true") (some "imported") (some "alice")).store ∧
    hasStoreWrite (runMany [mkTrig baseEnv, mkTrig bobEnv]
      (sampleState (some "true") (some "imported") (some "alice"))).2 = false ∧
    hasSetName (runMany [mkTrig baseEnv, mkTrig bobEnv]
      (sampleState (some "true") (some "imported") (some "alice"))).2 = false ∧
    Ev.fetchCall ∉ (runMany [mkTrig baseEnv, mkTrig bobEnv]
      (sampleState (some "true") (some "imported") (some "alice"))).2 ∧
    hasPublish (runMany [mkTrig baseEnv, mkTrig bobEnv]
      (sampleState (some "true") (some "imported") (some "alice"))).2 = false :=
  idempotentAfterCompletion [mkTrig baseEnv, mkTrig bobEnv]
    (sampleState (some "true") (some "imported") (some "alice")) (by decide)

/-- C8 witness: the seed origin is gone after a completed imported-seed run. -/
theorem seedOriginConsumed_witness :
    (runFlow (mkTrig baseEnv)
      (sampleState none (some "imported") (some "alice"))).state.store.seedOrigin =
      none :=
  seedOriginConsumed (mkTrig baseEnv) (sampleState none (some "imported") (some "alice"))
    (by decide) (by decide) (by decide) (by decide)

/-- C9 witness: a trigger with `portalApp` absent is a complete no-op. -/
theorem portalAppGate_witness :
    runFlow { mkTrig baseEnv with portalApp := false }
        (sampleState none (some "generated") none) =
      ⟨sampleState none (some "generated") none, [], false, ""⟩ :=
  portalAppGate { mkTrig baseEnv with portalApp := false }
    (sampleState none (some "generated") none) (by decide)

/-- C10 witness: a generated-seed run with the stored sentinel adopts
`Loading...`, publishes nothing, and sets the flag. -/
theorem generatedSentinelAdopted_witness :
    (runFlow (mkTrig baseEnv)
      (sampleState none (some "generated") (some "Loading..."))).resolved =
      "Loading..." ∧
    hasPublish (runFlow (mkTrig baseEnv)
      (sampleState none (some "generated") (some "Loading..."))).events = false ∧
    hasSetName (runFlow (mkTrig baseEnv)
      (sampleState none (some "generated") (some "Loading..."))).events = false ∧
    Ev.fetchCall ∉ (runFlow (mkTrig baseEnv)
      (sampleState none (some "generated") (some "Loading..."))).events ∧
    (runFlow (mkTrig baseEnv)
      (sampleState none (some "generated") (some "Loading..."))).state.store.initFlag =
      some "true" ∧
    (runFlow (mkTrig baseEnv)
      (sampleState none (some "generated") (some "Loading..."))).threw = false :=
  generatedSentinelAdopted (mkTrig baseEnv)
    (sampleState none (some "generated") (some "Loading..."))
    (by decide) (by decide) (by decide) (by decide) (by decide)

end PortalBootstrap
